import Mathlib

/-!
Shallow embedding of `sequence.py`, a periodic task-execution engine: the
`Timer` state machine, the daytime interval strategy (`DaytimeTimer`), the
command wrapper and gate (`BaseCmd` / `Cmd`), and the pieces of `Sequence`
the verified properties touch.

Modelling conventions: wall-clock instants and durations (Python floats from
`time.time()`) are rationals; Python `None` becomes `Option`; a raised
exception becomes `Except.error`; each call that reads the clock takes the
instant `now` as an explicit argument.
-/

/-- Python float modulo `x % y` for positive `y`: `x - y * ⌊x / y⌋`. -/
def pymod (x y : ℚ) : ℚ := x - y * ⌊x / y⌋

/-- State of `Timer` (`sequence.py` lines 13-170).  `_stage` and `_timelag`
are `None`-able in Python, hence `Option`.  `_first_time` is first assigned
in `start`; the code only reads it while alive (hence after a `start`), so it
gets an inert default `false` at construction. -/
structure Timer where
  interval : ℚ
  snap : Bool
  maxCount : Option ℕ
  latencyTolerance : ℚ
  stage : Option ℚ
  counter : ℕ
  timelag : Option ℚ
  stopped : Bool
  firstTime : Bool
deriving DecidableEq

/-- `Timer.__init__` (lines 17-35): assigns the configuration and clears the
mutable state.  No argument is validated. -/
def mkTimer (interval : ℚ) (maxCount : Option ℕ) (snap : Bool)
    (latencyTolerance : ℚ) : Timer :=
  { interval := interval, snap := snap, maxCount := maxCount,
    latencyTolerance := latencyTolerance, stage := none, counter := 0,
    timelag := none, stopped := false, firstTime := false }

/-- `Timer.__init__` as a fallible constructor: since the body only assigns
attributes and checks nothing, it never raises, for any argument values. -/
def Timer.construct (interval : ℚ) (maxCount : Option ℕ) (snap : Bool)
    (latencyTolerance : ℚ) : Except String Timer :=
  .ok (mkTimer interval maxCount snap latencyTolerance)

/-- `Timer.alive` (lines 56-59): Python `bool(self._stage)` — false when
`_stage` is `None`, and also when it is the number `0`. -/
def Timer.alive (t : Timer) : Bool :=
  match t.stage with
  | none => false
  | some s => decide (s ≠ 0)

/-- `Timer.runtime` (lines 61-72): seconds since `stage`; `none` when not
alive.  `now` stands for the `time.time()` call. -/
def Timer.runtime (t : Timer) (now : ℚ) : Option ℚ :=
  if t.alive then some (now - t.stage.getD 0) else none

/-- `Timer.start` (lines 83-107) for the base `Timer`, whose `actualize`
hook (lines 74-81) is a no-op.  Arms `_first_time` and sets `_stage`:
without snap, `stage = now` and the returned wait is `0`; with snap,
`wait = interval - now % interval` and `stage = now + wait`. -/
def Timer.start (t : Timer) (now : ℚ) : Timer × ℚ :=
  let t1 := { t with firstTime := true }
  if !t1.snap then ({ t1 with stage := some now }, 0)
  else
    let wait := t1.interval - pymod now t1.interval
    ({ t1 with stage := some (now + wait) }, wait)

/-- `Timer.check` (lines 109-149) for the base `Timer` (no-op `actualize`):
`none` when not alive; `some false` when the interval is `0` (the no-op hook
leaves it `0`) or the pass has not elapsed; an unconditional first tick after
`start`; otherwise the overrun bookkeeping (`timelag` set only when the lag
exceeds the tolerance), counter increment and `stage += interval`.  Python
reads the clock again for `self.runtime`; the single-instant model uses the
same `now` for both reads of one `check` call. -/
def Timer.check (t : Timer) (now : ℚ) : Timer × Option Bool :=
  if !t.alive then (t, none)
  else if t.interval = 0 then (t, some false)
  else if t.firstTime then
    ({ t with counter := t.counter + 1, firstTime := false }, some true)
  else if now - t.stage.getD 0 < t.interval then (t, some false)
  else
    let lag := now - t.stage.getD 0 - t.interval
    let t1 := { t with
      timelag := if lag ≤ t.latencyTolerance then none else some lag }
    if t1.interval = 0 then (t1, some false)
    else
      ({ t1 with counter := t1.counter + 1,
                 stage := some (t.stage.getD 0 + t1.interval) }, some true)

/-- Python `self.counter is self._max_count` (line 158): an `int` compared by
object identity against `None` or an `int`.  Against `None` it is `False`.
Against an `int`: CPython interns only the small ints `-5..256`; `counter` is
produced afresh by `self._counter += 1` and `max_count` is the object passed
at construction, so the two are the same object exactly when they are equal
cached small ints — equal values at most `256`.  For equal values above `256`
the identity test is `False`. -/
def pyIs (counter : ℕ) (maxCount : Option ℕ) : Bool :=
  match maxCount with
  | none => false
  | some n => counter == n && decide (counter ≤ 256)

/-- `Timer.reset` (lines 160-164): clears `counter`, `stage` and `stopped`
(not `timelag`). -/
def Timer.reset (t : Timer) : Timer :=
  { t with counter := 0, stage := none, stopped := false }

/-- `Timer.run_check` (lines 151-158): resets first when stopped, then
returns `alive and not (counter is max_count)`. -/
def Timer.run_check (t : Timer) : Timer × Bool :=
  let t1 := if t.stopped then t.reset else t
  (t1, t1.alive && !(pyIs t1.counter t1.maxCount))

/-- `Timer.stop` (lines 166-170). -/
def Timer.stop (t : Timer) : Timer := { t with stopped := true }

/-- `DaytimeTimer.actualize` (lines 193-201).  `data` is the sorted table of
(time-of-day, interval) pairs, `now` the current time-of-day, `interval` the
timer's interval field before the call (left unchanged when no branch writes
it).  `self._data[-1]` raises `IndexError` on an empty table.  When `now` is
below the LAST entry's time the interval becomes the FIRST entry's; otherwise
the scan adopts the interval of every entry with time strictly below `now`,
keeping the last match. -/
def daytimeActualize (data : List (ℚ × ℚ)) (now : ℚ) (interval : ℚ) :
    Except String ℚ :=
  match data.getLast? with
  | none => .error "IndexError"
  | some lastEntry =>
    if now < lastEntry.1 then .ok (data.headD (0, 0)).2
    else .ok (data.foldl (fun acc e => if e.1 < now then e.2 else acc) interval)

/-- `DaytimeTimer.__init__` (lines 177-191): stores the table, sorts it in
place (Python sorts the pairs lexicographically) and calls `Timer.__init__`,
which only assigns attributes.  Nothing is validated, so construction always
succeeds — even with an empty table.  (The source even passes the timer
object itself as the `interval` argument to `Timer.__init__`; that, too,
raises nothing at construction time.)  The result is the sorted table, the
state the later `actualize` calls read. -/
def DaytimeTimer.construct (data : List (ℚ × ℚ)) :
    Except String (List (ℚ × ℚ)) :=
  .ok (data.mergeSort fun a b =>
    decide (a.1 < b.1) || (decide (a.1 = b.1) && decide (a.2 ≤ b.2)))

/-- `BaseCmd.__call__` (lines 329-336), with the wrapped callable modelled as
an `Except` value: the wrapper bumps the invocation counter, sleeps the
pre-delay, logs RUN, runs the callable, logs DONE, sleeps the post-delay and
returns the result.  The source has no try/except, so an error from the
callable aborts the remaining steps and propagates out of the wrapper; the
result is the new counter, the emitted log lines, and the outcome. -/
def BaseCmd.call (name : String) (f : Except String ℚ) (counter : ℕ) :
    ℕ × List String × Except String ℚ :=
  let c1 := counter + 1
  match f with
  | .error e => (c1, ["RUN " ++ name], .error e)
  | .ok r => (c1, ["RUN " ++ name, "DONE " ++ name], .ok r)

/-- Configuration of the extended `Cmd` (lines 395-425). -/
structure Cmd where
  wait : ℚ
  stall : ℚ
  delay : ℚ
  nthtime : ℕ
  times : List ℚ

/-- `Cmd._check_times` (lines 437-448): vacuously true without configured
times; otherwise true iff some configured time `t` satisfies
`daytime ≥ t` and `daytime - t < interval`. -/
def Cmd.check_times (c : Cmd) (interval : ℚ) (daytime : ℚ) : Bool :=
  if c.times.isEmpty then true
  else if c.times.any fun t =>
      decide (daytime ≥ t) && decide (daytime - t < interval)
  then true else false

/-- `Cmd._check_nthtime` (lines 450-457): `counter % nthtime == 0`. -/
def Cmd.check_nthtime (c : Cmd) (counter : ℕ) : Bool :=
  counter % c.nthtime == 0

/-- `Cmd.check` (lines 427-429): both sub-gates must hold.  `interval` and
`counter` are what the gate reads from `sequence.timer`; `daytime` is the
`DayTime.daytime()` call. -/
def Cmd.check (c : Cmd) (interval : ℚ) (counter : ℕ) (daytime : ℚ) : Bool :=
  c.check_times interval daytime && c.check_nthtime counter

/-- `Cmd._check_delay` (lines 459-468): `max 0 (delay - runtime)`. -/
def Cmd.check_delay (c : Cmd) (runtime : ℚ) : ℚ :=
  let d := c.delay - runtime
  if d > 0 then d else 0

/-- `Cmd.preexec` (lines 431-432). -/
def Cmd.preexec (c : Cmd) (runtime : ℚ) : ℚ := c.wait + c.check_delay runtime

/-- `Cmd.postexec` (lines 434-435). -/
def Cmd.postexec (c : Cmd) : ℚ := c.stall

/-- Heap of Python list objects; a reference is an index into the heap.
This makes the aliasing of `Sequence.cmds` explicit. -/
structure Heap where
  cells : List (List ℕ)

/-- Allocate a fresh list object. -/
def Heap.alloc (h : Heap) (v : List ℕ) : Heap × ℕ :=
  (⟨h.cells ++ [v]⟩, h.cells.length)

/-- Read a list object. -/
def Heap.getRef (h : Heap) (r : ℕ) : List ℕ := h.cells.getD r []

/-- Overwrite a list object. -/
def Heap.setRef (h : Heap) (r : ℕ) (v : List ℕ) : Heap := ⟨h.cells.set r v⟩

/-- A `Sequence` as far as its command list is concerned: `self.cmds` is a
reference to a heap list object (commands themselves are numbered). -/
structure PySequence where
  cmds : ℕ

/-- Module load evaluates the default argument `cmds=list()` of
`Sequence.__init__` (line 208) exactly once, allocating one list object that
every later default-constructed `Sequence` shares. -/
def moduleLoadDefault (h : Heap) : Heap × ℕ := h.alloc []

/-- `Sequence.__init__` (lines 208-216): binds `self.cmds` to the explicit
argument when given, else to the module-level default object. -/
def Sequence.construct (defaultRef : ℕ) (explicitCmds : Option ℕ) :
    PySequence :=
  ⟨explicitCmds.getD defaultRef⟩

/-- `Sequence.add_cmd` (lines 225-229): appends to the list object
`self.cmds` refers to. -/
def Sequence.add_cmd (h : Heap) (s : PySequence) (c : ℕ) : Heap :=
  h.setRef s.cmds (h.getRef s.cmds ++ [c])

/-- The `Sequence` attributes relevant to `alive` and `stop`:
`__init__` assigns only `timer` and `cmds`; the `_alive` attribute
(`none` = never assigned) is first assigned inside `go` (line 272). -/
structure SeqState where
  timerStopped : Bool
  aliveAttr : Option Bool

/-- A freshly constructed, never-started `Sequence`. -/
def Sequence.constructState : SeqState := ⟨false, none⟩

/-- The `alive` property (lines 218-223): reads `self._alive`; before `go`
has run, the attribute does not exist and Python raises `AttributeError`. -/
def Sequence.aliveGet (s : SeqState) : Except String Bool :=
  match s.aliveAttr with
  | none => .error "AttributeError"
  | some b => .ok b

/-- The `while self.alive: time.sleep(0.01)` loop of `stop` (line 262) with
explicit fuel; an exception from reading `alive` propagates. -/
def Sequence.waitNotAlive : ℕ → SeqState → Except String Unit
  | 0, _ => .ok ()
  | fuel + 1, s =>
    match Sequence.aliveGet s with
    | .error e => .error e
    | .ok true => Sequence.waitNotAlive fuel s
    | .ok false => .ok ()

/-- `Sequence.stop` (lines 252-262): stops the timer, then when `wait` is
set, spins on `self.alive`. -/
def Sequence.stopSeq (s : SeqState) (wait : Bool) (fuel : ℕ) :
    SeqState × Except String Unit :=
  let s1 : SeqState := { s with timerStopped := true }
  if wait then (s1, Sequence.waitNotAlive fuel s1) else (s1, .ok ())

/-- One iteration of the timer part of the `go` loop (lines 273-276):
`run_check`, and when it grants another pass, `check` at instant `now`. -/
def loopStep (t : Timer) (now : ℚ) : Timer :=
  let r := t.run_check
  if r.2 then (r.1.check now).1 else r.1

/-- Trajectory used for the `max_count` analysis: a fresh no-snap timer with
`interval = 1` and `max_count = n`, started at instant `1`, then driven by
`run_check`/`check` once per second (the step producing state `k + 1` runs
at instant `k + 1`). -/
def timerRun (n : ℕ) : ℕ → Timer
  | 0 => ((mkTimer 1 (some n) false (1/100)).start 1).1
  | k + 1 => loopStep (timerRun n k) ((k : ℚ) + 1)

/-- The counter of the driven trajectory after `k` steps: capped at `n` when
`n` is small enough (`≤ 256`) for the identity test in `run_check` to ever
fire, unbounded otherwise. -/
def cval (n k : ℕ) : ℕ := if n ≤ 256 then min k n else k

/-- Closed form of `timerRun` (for `1 ≤ n`): after `k` driven steps the
counter is `cval n k`, the stage sits at instant `max (cval n k) 1`, and
`firstTime` survives only at `k = 0`. -/
def timerRunClosed (n k : ℕ) : Timer :=
  { interval := 1, snap := false, maxCount := some n,
    latencyTolerance := 1/100, stage := some ((max (cval n k) 1 : ℕ) : ℚ),
    counter := cval n k, timelag := none, stopped := false,
    firstTime := cval n k == 0 }

/-- The daytime table of the worked example in the documentation:
`[(06:00, 60), (12:00, 300), (22:00, 900)]`, times-of-day in seconds. -/
def exampleTable : List (ℚ × ℚ) := [(21600, 60), (43200, 300), (79200, 900)]

/-- A snap timer with interval `1` (tolerance `0.01`, no pass bound). -/
def c4Timer : Timer := mkTimer 1 none true (1/100)

/-- A started timer past its first tick: interval `1`, tolerance `0.01`,
`stage = 1`, one pass counted, `firstTime` already consumed. -/
def c5Timer : Timer :=
  { interval := 1, snap := false, maxCount := none, latencyTolerance := 1/100,
    stage := some 1, counter := 1, timelag := none, stopped := false,
    firstTime := false }

/-- The same timer, but with `firstTime` still armed (the state right after
`start` at instant `1`, before the first `check`). -/
def c6Timer : Timer :=
  { interval := 1, snap := false, maxCount := none, latencyTolerance := 1/100,
    stage := some 1, counter := 0, timelag := none, stopped := false,
    firstTime := true }

/-- An extended command firing every 2nd pass in the window starting at
time-of-day `10`. -/
def c7Cmd : Cmd := { wait := 0, stall := 0, delay := 0, nthtime := 2, times := [10] }

/-! ## Theorems -/

/-- Helper: Python float modulo against a nonzero divisor, written through
`Int.fract`. -/
theorem pymod_eq_fract (x y : ℚ) (hy : y ≠ 0) :
    pymod x y = y * Int.fract (x / y) := by
  have h : y * (x / y) = x := by field_simp
  unfold pymod Int.fract
  rw [mul_sub, h]

/-- Helper: `x % y` is nonnegative for positive `y`. -/
theorem pymod_nonneg (x y : ℚ) (hy : 0 < y) : 0 ≤ pymod x y := by
  rw [pymod_eq_fract x y hy.ne']
  exact mul_nonneg hy.le (Int.fract_nonneg _)

/-- Helper: `x % y < y` for positive `y`. -/
theorem pymod_lt (x y : ℚ) (hy : 0 < y) : pymod x y < y := by
  rw [pymod_eq_fract x y hy.ne']
  calc y * Int.fract (x / y) < y * 1 :=
        mul_lt_mul_of_pos_left (Int.fract_lt_one _) hy
    _ = y := mul_one y

/-- Claim C1 (code evaluation at the failing input): on the documented table
`[(06:00, 60), (12:00, 300), (22:00, 900)]` the interval-recomputation hook
yields 60 at 08:00, 900 at 23:00 and 60 at 02:00 as the claim states, but at
14:00 (= 50400 s) it yields 60, NOT the claimed 300: because 14:00 is still
below the LAST threshold 22:00, the code takes the default-to-first-entry
branch, contradicting its own docstring ("from each datetime.time on the
corresponding interval will be used"). -/
theorem daytime_actualize_examples :
    daytimeActualize exampleTable 28800 0 = .ok 60 ∧
    daytimeActualize exampleTable 50400 0 = .ok 60 ∧
    daytimeActualize exampleTable 50400 0 ≠ .ok 300 ∧
    daytimeActualize exampleTable 82800 0 = .ok 900 ∧
    daytimeActualize exampleTable 7200 0 = .ok 60 := by
  refine ⟨?_, ?_, ?_, ?_, ?_⟩ <;> norm_num [daytimeActualize, exampleTable]

/-- Claim C2 (counterexample): a failing wrapped callable makes the
invocation wrapper itself return the failure — the error propagates out of
`__call__` (there is no try/except), and the log contains only the RUN line,
no error entry identifying the command. -/
theorem basecmd_call_cex :
    (BaseCmd.call "job" (.error "boom") 0).2.2 = .error "boom" ∧
    (BaseCmd.call "job" (.error "boom") 0).2.1 = ["RUN job"] := ⟨rfl, rfl⟩

/-- Claim C2 (amended): for every command and every failure of its wrapped
callable, the wrapper increments the invocation counter, logs RUN, and then
lets the failure propagate out of the wrapper unchanged — it neither logs an
error nor reaches the DONE log or the post-delay.  (In the pass loop each
command runs on its own thread, so the loop survives anyway.) -/
theorem basecmd_call_propagates (name e : String) (counter : ℕ) :
    BaseCmd.call name (.error e) counter
      = (counter + 1, ["RUN " ++ name], .error e) := rfl

/-- Helper for claim C3: closed form of the driven timer trajectory.  After
`k` loop steps the counter is `cval n k` — `min k n` when `n ≤ 256`, where
the identity test against `max_count` can fire and freeze the state, and `k`
itself when `n > 256`, where the identity test never fires and every step
ticks — the stage sits at `max (cval n k) 1`, no timelag is pending and
`firstTime` survives only at `k = 0`. -/
theorem timerRun_closed (n : ℕ) (hn : 1 ≤ n) :
    ∀ k, timerRun n k = timerRunClosed n k := by
  have hn0 : n ≠ 0 := Nat.one_le_iff_ne_zero.mp hn
  intro k
  induction k with
  | zero =>
    simp [timerRun, timerRunClosed, cval, mkTimer, Timer.start]
  | succ k ih =>
    rw [timerRun, ih]
    by_cases h256 : n ≤ 256
    · have hc : ∀ j, cval n j = min j n := fun j => if_pos h256
      rcases Nat.lt_or_ge k n with hk | hk
      · rcases Nat.eq_zero_or_pos k with rfl | hpos
        · have hmin1 : min 1 n = 1 := Nat.min_eq_left hn
          have hne : (0 == n) = false := by simp [hn0.symm]
          simp [loopStep, Timer.run_check, timerRunClosed, Timer.reset, pyIs,
            Timer.alive, Timer.check, hc, hmin1, hne]
        · have hmink : min k n = k := Nat.min_eq_left hk.le
          have hmaxk : max k 1 = k := Nat.max_eq_left hpos
          have hminsk : min (k + 1) n = k + 1 := Nat.min_eq_left hk
          have hmaxsk : max (k + 1) 1 = k + 1 := Nat.max_eq_left (by omega)
          have hkne : (k == n) = false := by simp [Nat.ne_of_lt hk]
          have hk0 : (k == 0) = false := by simp [Nat.pos_iff_ne_zero.mp hpos]
          have hcast : ((k : ℚ)) ≠ 0 := Nat.cast_ne_zero.mpr (by omega)
          have harith : ¬ ((k : ℚ) + 1 - (k : ℚ) < 1) := by norm_num
          have hlag : (k : ℚ) + 1 - (k : ℚ) - 1 ≤ 1/100 := by norm_num
          simp [loopStep, Timer.run_check, timerRunClosed, Timer.reset, pyIs,
            Timer.alive, Timer.check, hc, hmink, hmaxk, hminsk, hmaxsk, hkne,
            hk0, hcast, harith, hlag]
      · have hminsk : min (k + 1) n = n := Nat.min_eq_right (by omega)
        have hmink : min k n = n := Nat.min_eq_right hk
        have hmaxn : max n 1 = n := Nat.max_eq_left hn
        have hn00 : (n == 0) = false := by simp [hn0]
        have h256d : decide (n ≤ 256) = true := decide_eq_true h256
        simp [loopStep, Timer.run_check, timerRunClosed, Timer.reset, pyIs,
          Timer.alive, Timer.check, hc, hmink, hminsk, hmaxn, hn00, h256d]
    · have hc : ∀ j, cval n j = j := fun j => if_neg h256
      have hpy : (k == n && decide (k ≤ 256)) = false := by
        by_cases hk : k ≤ 256
        · have hne : (k == n) = false := by
            have : k ≠ n := by omega
            simp [this]
          simp [hne]
        · have hd : decide (k ≤ 256) = false := decide_eq_false hk
          simp [hd]
      rcases Nat.eq_zero_or_pos k with rfl | hpos
      · simp [loopStep, Timer.run_check, timerRunClosed, Timer.reset, pyIs,
          Timer.alive, Timer.check, hc, hpy]
        omega
      · have hmaxk : max k 1 = k := Nat.max_eq_left hpos
        have hmaxsk : max (k + 1) 1 = k + 1 := Nat.max_eq_left (by omega)
        have hk0 : (k == 0) = false := by simp [Nat.pos_iff_ne_zero.mp hpos]
        have hcast : ((k : ℚ)) ≠ 0 := Nat.cast_ne_zero.mpr (by omega)
        have harith : ¬ ((k : ℚ) + 1 - (k : ℚ) < 1) := by norm_num
        have hlag : (k : ℚ) + 1 - (k : ℚ) - 1 ≤ 1/100 := by norm_num
        simp [loopStep, Timer.run_check, timerRunClosed, Timer.reset, pyIs,
          Timer.alive, Timer.check, hc, hpy, hmaxk, hmaxsk, hk0, hcast,
          harith, hlag]

/-- Claim C3 (code evaluation at the failing input): `run_check` compares the
pass counter to `max_count` with Python `is`, an object-identity test that
coincides with numeric equality only on CPython's interned small ints
(`-5..256`).  Driving the pass loop with `max_count = 257`, `run_check` stays
true at every step and the counter grows past `257` without bound — the loop
never terminates by exhaustion — whereas with `max_count = 256` the intended
behavior of the claim (and of the method's own docstring, "max_count has not
reached") holds: `run_check` is true exactly for the first `256` steps and
the counter is capped at `256`. -/
theorem runCheck_identity_bug :
    (∀ k, (timerRun 257 k).run_check.2 = true ∧ (timerRun 257 k).counter = k) ∧
    (∀ k, ((timerRun 256 k).run_check.2 = true ↔ k < 256) ∧
      (timerRun 256 k).counter = min k 256) := by
  constructor
  · intro k
    rw [timerRun_closed 257 (by norm_num) k]
    have hc : cval 257 k = k := if_neg (by norm_num)
    have hcast : ((max (cval 257 k) 1 : ℕ) : ℚ) ≠ 0 :=
      Nat.cast_ne_zero.mpr (by omega)
    have halive : (timerRunClosed 257 k).alive = true := by
      simp only [timerRunClosed, Timer.alive]
      exact decide_eq_true hcast
    have hpy : pyIs (cval 257 k) (some 257) = false := by
      rw [show pyIs (cval 257 k) (some 257)
            = (cval 257 k == 257 && decide (cval 257 k ≤ 256)) from rfl, hc]
      by_cases hk : k ≤ 256
      · have hne : (k == 257) = false := by
          have : k ≠ 257 := by omega
          simp [this]
        simp [hne]
      · have hd : decide (k ≤ 256) = false := decide_eq_false hk
        simp [hd]
    have hrc : (timerRunClosed 257 k).run_check.2
        = ((timerRunClosed 257 k).alive && !(pyIs (cval 257 k) (some 257))) :=
      rfl
    refine ⟨?_, ?_⟩
    · rw [hrc, halive, hpy]
      rfl
    · exact hc
  · intro k
    rw [timerRun_closed 256 (by norm_num) k]
    have hc : cval 256 k = min k 256 := if_pos (by norm_num)
    have hcast : ((max (cval 256 k) 1 : ℕ) : ℚ) ≠ 0 :=
      Nat.cast_ne_zero.mpr (by omega)
    have halive : (timerRunClosed 256 k).alive = true := by
      simp only [timerRunClosed, Timer.alive]
      exact decide_eq_true hcast
    have hrc : (timerRunClosed 256 k).run_check.2
        = ((timerRunClosed 256 k).alive && !(pyIs (cval 256 k) (some 256))) :=
      rfl
    have hd : decide (min k 256 ≤ 256) = true := decide_eq_true (by omega)
    have hpy : pyIs (cval 256 k) (some 256) = (min k 256 == 256) := by
      rw [show pyIs (cval 256 k) (some 256)
            = (cval 256 k == 256 && decide (cval 256 k ≤ 256)) from rfl, hc,
        hd, Bool.and_true]
    refine ⟨?_, ?_⟩
    · rw [hrc, halive, Bool.true_and, hpy]
      by_cases h : k < 256
      · have hne : (min k 256 == 256) = false := by
          have : min k 256 ≠ 256 := by omega
          simp [this]
        simp [hne, h]
      · have heq : min k 256 = 256 := by omega
        simp [heq, h]
    · exact hc

/-- Claim C4 (counterexample): with snap and interval `1`, starting at
instant `5` — a multiple of the interval — returns a wait of exactly `1`,
which does NOT lie in the claimed half-open range `[0, I)`. -/
theorem snap_start_range_cex :
    ¬ ((c4Timer.start 5).2 < c4Timer.interval) ∧ (c4Timer.start 5).2 = 1 := by
  norm_num [c4Timer, mkTimer, Timer.start, pymod]

/-- Claim C4 (amended): with snap and positive interval `I`, `start` returns
`I - now % I` and sets `stage = now + wait`; the wait lies in the half-open
range `(0, I]` (not `[0, I)`): it is `I` itself when `now` is a multiple of
`I`.  The stage is always an exact multiple of `I`, so two snap timers with
equal `I` started at any two real times have stages congruent modulo `I`. -/
theorem snap_start_amended (t : Timer) (now : ℚ) (hsnap : t.snap = true)
    (hI : 0 < t.interval) :
    (t.start now).2 = t.interval - pymod now t.interval ∧
    (t.start now).1.stage = some (now + (t.start now).2) ∧
    0 < (t.start now).2 ∧ (t.start now).2 ≤ t.interval ∧
    (∃ m : ℤ, now + (t.start now).2 = t.interval * (m : ℚ)) ∧
    ∀ now2 : ℚ, ∃ m : ℤ,
      (now + (t.start now).2) - (now2 + (t.start now2).2)
        = t.interval * (m : ℚ) := by
  have hstart : ∀ z : ℚ, (t.start z).2 = t.interval - pymod z t.interval := by
    intro z; simp [Timer.start, hsnap]
  have hmul : ∀ z : ℚ,
      z + (t.start z).2 = t.interval * ((⌊z / t.interval⌋ : ℚ) + 1) := by
    intro z
    rw [hstart z, pymod]
    ring
  refine ⟨hstart now, ?_, ?_, ?_, ?_, ?_⟩
  · simp [Timer.start, hsnap]
  · rw [hstart]; have := pymod_lt now t.interval hI; linarith
  · rw [hstart]; have := pymod_nonneg now t.interval hI; linarith
  · exact ⟨⌊now / t.interval⌋ + 1, by rw [hmul]; push_cast; ring⟩
  · intro now2
    exact ⟨⌊now / t.interval⌋ - ⌊now2 / t.interval⌋, by
      rw [hmul, hmul]; push_cast; ring⟩

/-- Claim C4 (witness): the amended statement instantiated on the snap timer
with interval `1` started at instant `5`. -/
theorem snap_start_amended_witness :
    c4Timer.snap = true ∧ 0 < c4Timer.interval ∧
    ((c4Timer.start 5).2 = c4Timer.interval - pymod 5 c4Timer.interval ∧
     (c4Timer.start 5).1.stage = some (5 + (c4Timer.start 5).2) ∧
     0 < (c4Timer.start 5).2 ∧ (c4Timer.start 5).2 ≤ c4Timer.interval ∧
     (∃ m : ℤ, 5 + (c4Timer.start 5).2 = c4Timer.interval * (m : ℚ)) ∧
     ∀ now2 : ℚ, ∃ m : ℤ,
       (5 + (c4Timer.start 5).2) - (now2 + (c4Timer.start now2).2)
         = c4Timer.interval * (m : ℚ)) :=
  ⟨rfl, by norm_num [c4Timer, mkTimer],
   snap_start_amended c4Timer 5 rfl (by norm_num [c4Timer, mkTimer])⟩

/-- Claim C5: on every tick reported by `check` other than the unconditional
first tick after `start`, the stage advances by exactly the current interval
(`stage := stage + interval`), the counter by one, and the new stage is not
the wall-clock instant of the call (unless that instant happens to equal
`stage + interval`) — so no cumulative drift accrues. -/
theorem check_tick_advances_stage (t : Timer) (now s : ℚ)
    (hs : t.stage = some s) (hf : t.firstTime = false) (hi : 0 < t.interval)
    (htick : (t.check now).2 = some true) :
    (t.check now).1.stage = some (s + t.interval) ∧
    (t.check now).1.counter = t.counter + 1 ∧
    (now ≠ s + t.interval → (t.check now).1.stage ≠ some now) := by
  by_cases ha : t.alive = true
  · by_cases hlt : now - s < t.interval
    · simp [Timer.check, ha, hf, hs, hi.ne', hlt] at htick
    · simp [Timer.check, ha, hf, hs, hi.ne', hlt]
      intro hne hcontra
      exact hne hcontra.symm
  · rw [Bool.not_eq_true] at ha
    simp [Timer.check, ha] at htick

/-- Claim C5 (witness): the started timer `c5Timer` (stage `1`, interval `1`,
past its first tick) checked at instant `2`. -/
theorem check_tick_advances_stage_witness :
    c5Timer.stage = some 1 ∧ c5Timer.firstTime = false ∧
    0 < c5Timer.interval ∧ (c5Timer.check 2).2 = some true ∧
    ((c5Timer.check 2).1.stage = some (1 + c5Timer.interval) ∧
     (c5Timer.check 2).1.counter = c5Timer.counter + 1 ∧
     ((2 : ℚ) ≠ 1 + c5Timer.interval → (c5Timer.check 2).1.stage ≠ some 2)) := by
  have htick : (c5Timer.check 2).2 = some true := by
    norm_num [c5Timer, Timer.check, Timer.alive]
  exact ⟨rfl, rfl, by norm_num [c5Timer], htick,
    check_tick_advances_stage c5Timer 2 1 rfl rfl (by norm_num [c5Timer]) htick⟩

/-- Claim C6 (counterexample): the unconditional first tick after `start`
skips the timelag bookkeeping entirely.  `c6Timer` was started at instant `1`
with interval `1` and tolerance `0.01`; its first `check` at instant `10` is
a tick evaluation with elapsed `9 ≥ 1` and overrun `8 > 0.01`, yet `timelag`
is left clear instead of being set to `8`. -/
theorem check_timelag_first_tick_cex :
    (c6Timer.check 10).2 = some true ∧
    c6Timer.interval ≤ 10 - 1 ∧
    c6Timer.latencyTolerance < 10 - 1 - c6Timer.interval ∧
    (c6Timer.check 10).1.timelag = none := by
  norm_num [c6Timer, Timer.check, Timer.alive]

/-- Claim C6 (amended): on every tick evaluation other than the unconditional
first tick after `start`, where the elapsed time since `stage` is at least
the interval, letting `lag = elapsed - interval`: `timelag` is set to exactly
`lag` when `lag` exceeds the tolerance and cleared otherwise (in particular,
with no overruns it is cleared on every such tick). -/
theorem check_timelag_amended (t : Timer) (now s : ℚ)
    (hs : t.stage = some s) (hs0 : s ≠ 0) (hf : t.firstTime = false)
    (hi : 0 < t.interval) (he : t.interval ≤ now - s) :
    (t.check now).1.timelag
      = if now - s - t.interval ≤ t.latencyTolerance then none
        else some (now - s - t.interval) := by
  have ha : t.alive = true := by simp [Timer.alive, hs, hs0]
  have hlt : ¬ (now - s < t.interval) := not_lt.mpr he
  simp [Timer.check, ha, hf, hs, hi.ne', hlt]

/-- Claim C6 (witness): the amended statement on `c5Timer` (stage `1`,
interval `1`, tolerance `0.01`, past the first tick) checked at instant `10`:
the overrun `8` exceeds the tolerance, so `timelag` is set to exactly `8`. -/
theorem check_timelag_amended_witness :
    c5Timer.stage = some 1 ∧ (1 : ℚ) ≠ 0 ∧ c5Timer.firstTime = false ∧
    0 < c5Timer.interval ∧ c5Timer.interval ≤ 10 - 1 ∧
    (c5Timer.check 10).1.timelag
      = if 10 - 1 - c5Timer.interval ≤ c5Timer.latencyTolerance then none
        else some (10 - 1 - c5Timer.interval) :=
  ⟨rfl, by norm_num, rfl, by norm_num [c5Timer], by norm_num [c5Timer],
   check_timelag_amended c5Timer 10 1 rfl (by norm_num) rfl
     (by norm_num [c5Timer]) (by norm_num [c5Timer])⟩

/-- Claim C7: the extended gate accepts on a pass iff both predicates hold —
the counter is a multiple of `nthtime` (with `nthtime = 1` the nth-pass
filter accepts every pass), and either no time-of-day windows are configured
or some configured time `t` satisfies `daytime ≥ t` and
`daytime - t < interval`. -/
theorem cmd_check_gate (c : Cmd) (interval daytime : ℚ) (counter : ℕ)
    (hnth : 0 < c.nthtime) :
    (c.check interval counter daytime = true ↔
      (counter % c.nthtime = 0 ∧
        (c.times = [] ∨
          ∃ t ∈ c.times, daytime ≥ t ∧ daytime - t < interval))) ∧
    (c.nthtime = 1 → c.check_nthtime counter = true) := by
  constructor
  · rcases eq_or_ne c.times [] with h | h
    · simp [Cmd.check, Cmd.check_times, Cmd.check_nthtime, h]
    · simp [Cmd.check, Cmd.check_times, Cmd.check_nthtime, h,
        List.isEmpty_iff, List.any_eq_true]
      tauto
  · intro h; simp [Cmd.check_nthtime, h, Nat.mod_one]

/-- Claim C7 (witness): the command `c7Cmd` (`nthtime = 2`, window at
time-of-day `10`) with interval `1`, counter `4`, at time-of-day `10`. -/
theorem cmd_check_gate_witness :
    0 < c7Cmd.nthtime ∧
    ((c7Cmd.check 1 4 10 = true ↔
      (4 % c7Cmd.nthtime = 0 ∧
        (c7Cmd.times = [] ∨
          ∃ t ∈ c7Cmd.times, (10 : ℚ) ≥ t ∧ 10 - t < 1))) ∧
     (c7Cmd.nthtime = 1 → c7Cmd.check_nthtime 4 = true)) :=
  ⟨by norm_num [c7Cmd], cmd_check_gate c7Cmd 1 10 4 (by norm_num [c7Cmd])⟩

/-- Claim C8 (counterexample): construction does not fail fast.  A
`DaytimeTimer` built on an empty (malformed) table and a `Timer` built on a
negative interval both construct successfully; the empty table first raises
`IndexError` when the recomputation hook runs — that is, at `start` or
mid-loop, not at construction. -/
theorem construct_no_validation_cex :
    (DaytimeTimer.construct []).isOk = true ∧
    (Timer.construct (-5) none false (1/100)).isOk = true ∧
    daytimeActualize [] 0 0 = .error "IndexError" := ⟨rfl, rfl, rfl⟩

/-- Claim C8 (amended): neither constructor validates anything — both succeed
on every input, including malformed ones — and a malformed (empty)
time-of-day table first surfaces as an `IndexError` when the
interval-recomputation hook runs, i.e. during `start` or the pass loop. -/
theorem construct_no_validation (data : List (ℚ × ℚ)) (i tol : ℚ)
    (mc : Option ℕ) (sn : Bool) (now i0 : ℚ) :
    (DaytimeTimer.construct data).isOk = true ∧
    (Timer.construct i mc sn tol).isOk = true ∧
    daytimeActualize [] now i0 = .error "IndexError" := ⟨rfl, rfl, rfl⟩

/-- Claim C9 (code evaluation at the failing input): the default command
container is one shared object.  After module load allocates the single
default list, two Sequences constructed without an explicit command list both
alias it; adding command `7` to the first makes it appear in the second's
command list as well. -/
theorem default_cmds_shared :
    (let h0 : Heap := ⟨[]⟩
     let load := moduleLoadDefault h0
     let s1 := Sequence.construct load.2 none
     let s2 := Sequence.construct load.2 none
     let h2 := Sequence.add_cmd load.1 s1 7
     h2.getRef s2.cmds) = [7] := rfl

/-- Claim C10: on a constructed `Sequence` on which `go` has never run,
reading the `alive` property raises `AttributeError` (the backing `_alive`
attribute is first assigned inside `go`), and consequently
`stop(wait=True)` raises as well instead of returning, for any number of
loop iterations granted. -/
theorem never_started_alive_raises (fuel : ℕ) :
    Sequence.aliveGet Sequence.constructState = .error "AttributeError" ∧
    (Sequence.stopSeq Sequence.constructState true (fuel + 1)).2
      = .error "AttributeError" := ⟨rfl, rfl⟩
